import Mathlib

/-!
Verification of the Modbus-Webserver acquisition core against its
natural-language specification.  The Python services under
modbus_app/services are shallowly embedded: pure functions become Lean
functions, Python exceptions become an explicit Except channel that the
source's try/except blocks catch, machine integers are Nat/Int with
explicit bounds, and float comparisons are carried out over ℚ.
-/

namespace ModbusWeb

/-- A decoded Modbus value as produced by convert_registers_to_value: a
Python int, a Python bool, or a FLOAT32 represented by its 32-bit
IEEE-754 bit pattern. -/
inductive PyValue where
  | int (i : Int)
  | bool (b : Bool)
  | f32 (pattern : Nat)
deriving DecidableEq, Repr

/-- Python list indexing l[i]: raises IndexError when out of range. -/
def getItem (l : List Nat) (i : Nat) : Except String Nat :=
  match l.get? i with
  | some v => Except.ok v
  | none => Except.error ("IndexError")

/-- struct.pack of two unsigned 16-bit words into 4 bytes, as used in
convert_registers_to_value: format .>HH. when byte_order is big, .<HH.
otherwise; raises struct.error when a word does not fit in 16 bits. -/
def packHH (byte_order : String) (w0 w1 : Nat) : Except String (Nat × Nat × Nat × Nat) :=
  if w0 < 65536 ∧ w1 < 65536 then
    if byte_order = "big" then Except.ok (w0 / 256, w0 % 256, w1 / 256, w1 % 256)
    else Except.ok (w0 % 256, w0 / 256, w1 % 256, w1 / 256)
  else Except.error ("struct.error")

/-- struct.unpack of 4 bytes as an unsigned 32-bit integer, format .>I.
when byte_order is big, .<I. otherwise. -/
def unpackU32 (byte_order : String) (b : Nat × Nat × Nat × Nat) : Nat :=
  if byte_order = "big" then
    b.1 * 16777216 + b.2.1 * 65536 + b.2.2.1 * 256 + b.2.2.2
  else
    b.2.2.2 * 16777216 + b.2.2.1 * 65536 + b.2.1 * 256 + b.1

/-- struct.unpack of 4 bytes as a signed (two's-complement) 32-bit
integer, format .>i. or .<i. per byte_order. -/
def unpackI32 (byte_order : String) (b : Nat × Nat × Nat × Nat) : Int :=
  let u := unpackU32 byte_order b
  if u ≥ 2147483648 then (u : Int) - 4294967296 else (u : Int)

/-- Body of ModbusDriverBase.convert_registers_to_value
(modbus_driver.py lines 230-286) before its enclosing try/except: AUTO
resolution, the per-type branches, and the 32-bit pack/unpack path.  The
error channel carries the exceptions Python could raise (IndexError on
registers[0] of an empty list, struct.error on an oversized word); a
returned none models the branches where the source logs and returns
None. -/
def convertRegistersBody (registers : List Nat) (data_type byte_order word_order : String) :
    Except String (Option PyValue) :=
  let dt := if data_type = "AUTO" then
      (if registers.length = 1 then "UINT16" else "FLOAT32")
    else data_type
  if dt = "BOOL" then
    match getItem registers 0 with
    | Except.error e => Except.error e
    | Except.ok w => Except.ok (some (PyValue.bool (w != 0)))
  else if dt = "INT16" then
    match getItem registers 0 with
    | Except.error e => Except.error e
    | Except.ok w =>
        Except.ok (some (PyValue.int (if w ≥ 32768 then (w : Int) - 65536 else (w : Int))))
  else if dt = "UINT16" then
    match getItem registers 0 with
    | Except.error e => Except.error e
    | Except.ok w => Except.ok (some (PyValue.int (w : Int)))
  else if dt = "INT32" ∨ dt = "UINT32" ∨ dt = "FLOAT32" then
    if registers.length < 2 then
      Except.ok none
    else
      match getItem registers 0, getItem registers 1 with
      | Except.ok r0, Except.ok r1 =>
        let pair := if word_order = "low_high" then (r1, r0) else (r0, r1)
        match packHH byte_order pair.1 pair.2 with
        | Except.error e => Except.error e
        | Except.ok bytes =>
          if dt = "INT32" then
            Except.ok (some (PyValue.int (unpackI32 byte_order bytes)))
          else if dt = "UINT32" then
            Except.ok (some (PyValue.int (unpackU32 byte_order bytes : Int)))
          else
            Except.ok (some (PyValue.f32 (unpackU32 byte_order bytes)))
      | Except.error e, _ => Except.error e
      | _, Except.error e => Except.error e
  else
    Except.ok none

/-- ModbusDriverBase.convert_registers_to_value: the body wrapped in the
source's try/except that logs and returns None on any exception. -/
def convert_registers_to_value (registers : List Nat) (data_type byte_order word_order : String) :
    Option PyValue :=
  match convertRegistersBody registers data_type byte_order word_order with
  | Except.ok v => v
  | Except.error _ => none

/-- Fold a byte list most-significant byte first. -/
def byteFoldBE (l : List Nat) : Nat := l.foldl (fun acc b => acc * 256 + b) 0

/-- Fold a byte list least-significant byte first. -/
def byteFoldLE (l : List Nat) : Nat := byteFoldBE l.reverse

/-- The 32-bit integer decode algorithm exactly as claim C4 words it:
with fewer than 2 words there is no value; otherwise swap the first two
words when word order is low_high, pack them into a 4-byte buffer
(big-endian per word when byte order is big, little-endian otherwise),
and reinterpret the buffer as a signed or unsigned 32-bit integer using
the same byte order. -/
def int32DecodeSpec (signed : Bool) (words : List Nat) (byte_order word_order : String) :
    Option Int :=
  match words with
  | w0 :: w1 :: _ =>
    let p := if word_order = "low_high" then (w1, w0) else (w0, w1)
    let buf : List Nat :=
      if byte_order = "big" then [p.1 / 256, p.1 % 256, p.2 / 256, p.2 % 256]
      else [p.1 % 256, p.1 / 256, p.2 % 256, p.2 / 256]
    let u := if byte_order = "big" then byteFoldBE buf else byteFoldLE buf
    some (if signed ∧ u ≥ 2 ^ 31 then (u : Int) - 2 ^ 32 else (u : Int))
  | _ => none

/-! Alarm engine (alarm_checker.py).  Values compared by alarm conditions
are Python floats; the comparisons are embedded over ℚ. -/

/-- AlarmChecker._evaluate_condition (alarm_checker.py lines 62-100).
For a range condition with threshold_low missing the source logs an error
and returns False; an unknown condition also logs and returns False. -/
def evaluate_condition (condition : String) (value threshold_high : ℚ)
    (threshold_low : Option ℚ) (hysteresis : ℚ) : Bool :=
  if condition = "greater_than" then decide (value > threshold_high + hysteresis)
  else if condition = "less_than" then decide (value < threshold_high - hysteresis)
  else if condition = "equals" then decide (|value - threshold_high| ≤ hysteresis)
  else if condition = "not_equals" then decide (|value - threshold_high| > hysteresis)
  else if condition = "range" then
    match threshold_low with
    | none => false
    | some lo => !(decide (lo - hysteresis ≤ value ∧ value ≤ threshold_high + hysteresis))
  else false

/-- The error claim C7 attributes to a range condition without a low
threshold. -/
inductive AlarmConditionError where
  | missingLowThreshold
deriving DecidableEq, Repr

/-- Modelled from the spec (section 4.5 evaluateCondition), for comparison
with the source's evaluate_condition: identical comparisons, but a range
condition with thresholdLow absent is a hard failure MissingLowThreshold. -/
def evaluateConditionSpec (condition : String) (value threshold_high : ℚ)
    (threshold_low : Option ℚ) (hysteresis : ℚ) : Except AlarmConditionError Bool :=
  if condition = "greater_than" then Except.ok (decide (value > threshold_high + hysteresis))
  else if condition = "less_than" then Except.ok (decide (value < threshold_high - hysteresis))
  else if condition = "equals" then Except.ok (decide (|value - threshold_high| ≤ hysteresis))
  else if condition = "not_equals" then Except.ok (decide (|value - threshold_high| > hysteresis))
  else if condition = "range" then
    match threshold_low with
    | none => Except.error AlarmConditionError.missingLowThreshold
    | some lo =>
        Except.ok (!(decide (lo - hysteresis ≤ value ∧ value ≤ threshold_high + hysteresis)))
  else Except.ok false

/-- One AlarmHistory row (models.py AlarmHistory): timestamps are
abstract Nat instants. -/
structure AlarmEvent where
  triggered_at : Nat
  cleared_at : Option Nat
  trigger_value : ℚ
  acknowledged : Bool
deriving DecidableEq, Repr

/-- The persistent state check_alarm touches for one alarm: its
last_triggered field and its AlarmHistory rows. -/
structure AlarmState where
  last_triggered : Option Nat
  events : List AlarmEvent
deriving DecidableEq, Repr

/-- The configuration fields of one Alarm row read by check_alarm. -/
structure AlarmCfg where
  enabled : Bool
  condition : String
  threshold_high : ℚ
  threshold_low : Option ℚ
  hysteresis : ℚ
deriving Repr

/-- Alarm.is_active (models.py line 536): an AlarmHistory row with null
cleared_at exists. -/
def isActive (events : List AlarmEvent) : Bool :=
  events.any (fun e => e.cleared_at.isNone)

/-- Number of open (cleared_at null) history rows. -/
def openCount (events : List AlarmEvent) : Nat :=
  (events.filter (fun e => e.cleared_at.isNone)).length

/-- The row _clear_alarm selects: filter cleared_at null, order by
triggered_at descending, first — the open row with the greatest
triggered_at, together with its position (on equal timestamps the
later-stored row is taken; reachable states have at most one open row,
so the tie rule is immaterial). -/
def bestOpen : List AlarmEvent → Option (Nat × AlarmEvent)
  | [] => none
  | e :: rest =>
    match bestOpen rest with
    | none => if e.cleared_at.isNone then some (0, e) else none
    | some (j, f) =>
      if e.cleared_at.isNone && !(decide (e.triggered_at ≤ f.triggered_at)) then some (0, e)
      else some (j + 1, f)

/-- AlarmChecker._clear_alarm (alarm_checker.py lines 131-152): stamp
cleared_at on the most recent open history row, if any. -/
def clear_alarm (now : Nat) (st : AlarmState) : AlarmState :=
  match bestOpen st.events with
  | none => st
  | some (i, e) =>
    AlarmState.mk st.last_triggered
      (st.events.set i (AlarmEvent.mk e.triggered_at (some now) e.trigger_value e.acknowledged))

/-- AlarmChecker._trigger_alarm (alarm_checker.py lines 102-129): stamp
last_triggered and append a fresh open, unacknowledged history row. -/
def trigger_alarm (now : Nat) (value : ℚ) (st : AlarmState) : AlarmState :=
  AlarmState.mk (some now) (st.events ++ [AlarmEvent.mk now none value false])

/-- AlarmChecker.check_alarm (alarm_checker.py lines 17-60): disabled or
no good sample → false; otherwise evaluate the condition and apply the
edge-triggered transition. -/
def check_alarm (cfg : AlarmCfg) (latest : Option ℚ) (now : Nat) (st : AlarmState) :
    Bool × AlarmState :=
  if !cfg.enabled then (false, st)
  else
    match latest with
    | none => (false, st)
    | some value =>
      let should := evaluate_condition cfg.condition value cfg.threshold_high
        cfg.threshold_low cfg.hysteresis
      if should && !(isActive st.events) then
        (true, trigger_alarm now value st)
      else if !should && isActive st.events then
        (false, clear_alarm now st)
      else (false, st)

/-! Protocol driver state machine (modbus_driver.py).  Each public
read/write operation is embedded as a function of the driver's state,
the transport result of an implicit connect (when one is attempted),
and the outcome of the issued Modbus request. -/

/-- The mutable state of a ModbusDriverBase instance: the _connected
flag and whether self.client has been assigned. -/
structure DriverState where
  connected : Bool
  hasClient : Bool
deriving DecidableEq, Repr

/-- Outcome of one issued Modbus request: a normal response, a
protocol-level error response (result.isError()), or a raised transport
exception. -/
inductive OpOutcome where
  | ok
  | protocolError
  | raised
deriving DecidableEq, Repr

/-- ModbusDriverBase.is_connected. -/
def driver_is_connected (st : DriverState) : Bool := st.connected && st.hasClient

/-- connect() of the RTU/TCP drivers: assigns self.client and sets
_connected to the transport result, which it returns. -/
def driver_connect (res : Bool) (_st : DriverState) : Bool × DriverState :=
  (res, DriverState.mk res true)

/-- ModbusDriverBase.read_coils (FC01): implicit connect when not
connected (failure returns None), then the request; a protocol error or
exception clears _connected and yields None; success yields the bits
truncated to count. -/
def read_coils (_slave_id _address : Nat) (count : Nat) (connectRes : Bool)
    (outcome : OpOutcome) (bits : List Bool) (st : DriverState) :
    Option (List Bool) × DriverState :=
  let c := if !(driver_is_connected st) then driver_connect connectRes st else (true, st)
  if !c.1 then (none, c.2)
  else
    match outcome with
    | OpOutcome.raised => (none, DriverState.mk false c.2.hasClient)
    | OpOutcome.protocolError => (none, DriverState.mk false c.2.hasClient)
    | OpOutcome.ok => (some (bits.take count), c.2)

/-- ModbusDriverBase.read_discrete_inputs (FC02): same shape as FC01. -/
def read_discrete_inputs (_slave_id _address : Nat) (count : Nat) (connectRes : Bool)
    (outcome : OpOutcome) (bits : List Bool) (st : DriverState) :
    Option (List Bool) × DriverState :=
  let c := if !(driver_is_connected st) then driver_connect connectRes st else (true, st)
  if !c.1 then (none, c.2)
  else
    match outcome with
    | OpOutcome.raised => (none, DriverState.mk false c.2.hasClient)
    | OpOutcome.protocolError => (none, DriverState.mk false c.2.hasClient)
    | OpOutcome.ok => (some (bits.take count), c.2)

/-- ModbusDriverBase.read_holding_registers (FC03): yields the raw word
sequence. -/
def read_holding_registers (_slave_id _address _count : Nat) (connectRes : Bool)
    (outcome : OpOutcome) (words : List Nat) (st : DriverState) :
    Option (List Nat) × DriverState :=
  let c := if !(driver_is_connected st) then driver_connect connectRes st else (true, st)
  if !c.1 then (none, c.2)
  else
    match outcome with
    | OpOutcome.raised => (none, DriverState.mk false c.2.hasClient)
    | OpOutcome.protocolError => (none, DriverState.mk false c.2.hasClient)
    | OpOutcome.ok => (some words, c.2)

/-- ModbusDriverBase.read_input_registers (FC04): same shape as FC03. -/
def read_input_registers (_slave_id _address _count : Nat) (connectRes : Bool)
    (outcome : OpOutcome) (words : List Nat) (st : DriverState) :
    Option (List Nat) × DriverState :=
  let c := if !(driver_is_connected st) then driver_connect connectRes st else (true, st)
  if !c.1 then (none, c.2)
  else
    match outcome with
    | OpOutcome.raised => (none, DriverState.mk false c.2.hasClient)
    | OpOutcome.protocolError => (none, DriverState.mk false c.2.hasClient)
    | OpOutcome.ok => (some words, c.2)

/-- ModbusDriverBase.write_coil (FC05): a failure clears _connected and
returns False. -/
def write_coil (_slave_id _address : Nat) (_value : Bool) (connectRes : Bool)
    (outcome : OpOutcome) (st : DriverState) : Bool × DriverState :=
  let c := if !(driver_is_connected st) then driver_connect connectRes st else (true, st)
  if !c.1 then (false, c.2)
  else
    match outcome with
    | OpOutcome.raised => (false, DriverState.mk false c.2.hasClient)
    | OpOutcome.protocolError => (false, DriverState.mk false c.2.hasClient)
    | OpOutcome.ok => (true, c.2)

/-- ModbusDriverBase.write_register (FC06, modbus_driver.py lines
154-169): when not connected it calls connect() but ignores the result,
and — unlike every other operation — neither the protocol-error branch
nor the exception branch touches _connected. -/
def write_register (_slave_id _address _value : Nat) (connectRes : Bool)
    (outcome : OpOutcome) (st : DriverState) : Bool × DriverState :=
  let st1 := if !(driver_is_connected st) then (driver_connect connectRes st).2 else st
  match outcome with
  | OpOutcome.raised => (false, st1)
  | OpOutcome.protocolError => (false, st1)
  | OpOutcome.ok => (true, st1)

/-- ModbusDriverBase.write_coils (FC15): a failure clears _connected and
returns False. -/
def write_coils (_slave_id _address : Nat) (_values : List Bool) (connectRes : Bool)
    (outcome : OpOutcome) (st : DriverState) : Bool × DriverState :=
  let c := if !(driver_is_connected st) then driver_connect connectRes st else (true, st)
  if !c.1 then (false, c.2)
  else
    match outcome with
    | OpOutcome.raised => (false, DriverState.mk false c.2.hasClient)
    | OpOutcome.protocolError => (false, DriverState.mk false c.2.hasClient)
    | OpOutcome.ok => (true, c.2)

/-- ModbusDriverBase.write_registers (FC16): a failure clears _connected
and returns False. -/
def write_registers (_slave_id _address : Nat) (_values : List Nat) (connectRes : Bool)
    (outcome : OpOutcome) (st : DriverState) : Bool × DriverState :=
  let c := if !(driver_is_connected st) then driver_connect connectRes st else (true, st)
  if !c.1 then (false, c.2)
  else
    match outcome with
    | OpOutcome.raised => (false, DriverState.mk false c.2.hasClient)
    | OpOutcome.protocolError => (false, DriverState.mk false c.2.hasClient)
    | OpOutcome.ok => (true, c.2)

/-! Connection manager (connection_manager.py).  Its _create_connection
constructs ModbusRTUDriver and ModbusTCPDriver with keyword transport
arguments, while both driver classes inherit the single-parameter
constructor ModbusDriverBase.init(interface_config) from
modbus_driver.py; Python keyword binding of such a call raises
TypeError.  The binding rule is embedded explicitly so the mismatch is
visible in the model rather than assumed. -/

/-- Python keyword-argument binding of a call that passes only keyword
arguments: it succeeds exactly when every supplied keyword names a
declared parameter and every parameter without a default receives an
argument. -/
def pyKwargsBind (params required supplied : List String) : Bool :=
  supplied.all (fun k => params.contains k) && required.all (fun k => supplied.contains k)

/-- The parameters of ModbusDriverBase.init besides self
(modbus_driver.py line 18): interface_config, no default. -/
def driverInitParams : List String := ["interface_config"]

/-- Keyword arguments _create_connection passes to ModbusRTUDriver
(connection_manager.py lines 61-68). -/
def rtuCtorKwargs : List String :=
  ["port", "baudrate", "parity", "stopbits", "bytesize", "timeout"]

/-- Keyword arguments _create_connection passes to ModbusTCPDriver
(connection_manager.py lines 70-74). -/
def tcpCtorKwargs : List String := ["host", "tcp_port", "timeout"]

/-- The parameters of ModbusDriverBase.read_holding_registers besides
self (modbus_driver.py line 87); count has a default. -/
def readHoldingParams : List String := ["slave_id", "address", "count"]

/-- The parameters of read_holding_registers without a default. -/
def readHoldingRequired : List String := ["slave_id", "address"]

/-- Keyword arguments of the probe read in health_check
(connection_manager.py lines 150-154). -/
def probeKwargs : List String := ["address", "count", "slave"]

/-- A pooled driver object as the pool test sees it: whether its client
exposes is_socket_open, and that socket state. -/
structure PooledDriver where
  hasSocketCheck : Bool
  socketOpen : Bool
deriving DecidableEq, Repr

/-- The in-memory statistics bucket of one interface. -/
structure ConnStats where
  success_count : Nat
  error_count : Nat
  last_success : Option Nat
  last_error : Option Nat
  total_response_time : ℚ
deriving DecidableEq, Repr

/-- ConnectionManager state: the _connections pool and the
_connection_stats map, keyed by interface id. -/
structure CMState where
  connections : List (Nat × PooledDriver)
  connection_stats : List (Nat × ConnStats)
deriving DecidableEq, Repr

/-- Dictionary lookup by key. -/
def lookupA {α : Type} (l : List (Nat × α)) (k : Nat) : Option α :=
  (l.find? (fun p => p.1 == k)).map Prod.snd

/-- Dictionary assignment d[k] = v. -/
def insertA {α : Type} (l : List (Nat × α)) (k : Nat) (v : α) : List (Nat × α) :=
  if l.any (fun p => p.1 == k) then
    l.map (fun p => if p.1 == k then (k, v) else p)
  else l ++ [(k, v)]

/-- Dictionary deletion del d[k]. -/
def removeA {α : Type} (l : List (Nat × α)) (k : Nat) : List (Nat × α) :=
  l.filter (fun p => p.1 != k)

/-- The interface fields the connection manager reads. -/
structure InterfaceCfg where
  id : Nat
  enabled : Bool
  protocol : String
deriving DecidableEq, Repr

/-- The observable result of one connection-manager call: the returned
value or raised exception, the manager state after the call, the
sequence of interface.update_status arguments issued, and the number of
driver.connect() transport attempts performed. -/
structure CMResult (α : Type) where
  result : Except String α
  state : CMState
  statusUpdates : List String
  transportConnects : Nat

/-- The driver-construction step of _create_connection: binds the
keyword arguments against ModbusDriverBase.init.  Binding always fails
with TypeError (the keywords name no parameter of interface_config), so
the ok branch carries the freshly initialised driver state that
init would otherwise produce (client None, so no socket check). -/
def constructDriver (kwargs : List String) : Except String PooledDriver :=
  if pyKwargsBind driverInitParams driverInitParams kwargs then
    Except.ok (PooledDriver.mk false false)
  else Except.error ("TypeError")

/-- ConnectionManager._create_connection (connection_manager.py lines
57-100): construct the protocol's driver, call connect() discarding its
result, cache the driver, and initialise the statistics bucket when
absent; any exception sets interface status error and re-raises. -/
def create_connection (iface : InterfaceCfg) (st : CMState) : CMResult PooledDriver :=
  let ctor : Except String PooledDriver :=
    if iface.protocol = "RTU" then constructDriver rtuCtorKwargs
    else if iface.protocol = "TCP" then constructDriver tcpCtorKwargs
    else Except.error ("ValueError")
  match ctor with
  | Except.error e => CMResult.mk (Except.error e) st ["error"] 0
  | Except.ok driver =>
    let st1 := CMState.mk (insertA st.connections iface.id driver)
      (if (lookupA st.connection_stats iface.id).isSome then st.connection_stats
       else st.connection_stats ++ [(iface.id, ConnStats.mk 0 0 none none 0)])
    CMResult.mk (Except.ok driver) st1 [] 1

/-- ConnectionManager._test_connection (connection_manager.py lines
113-133): TCP clients are asked is_socket_open; otherwise the
connection is assumed alive. -/
def test_connection (d : PooledDriver) : Bool :=
  if d.hasSocketCheck then d.socketOpen else true

/-- ConnectionManager._close_connection: disconnect (errors swallowed)
and drop the pool entry. -/
def close_connection (iid : Nat) (st : CMState) : CMState :=
  CMState.mk (removeA st.connections iid) st.connection_stats

/-- ConnectionManager.get_connection (connection_manager.py lines
25-55): disabled interface raises; a pooled driver that tests alive is
returned; a dead one is closed and recreated; otherwise a new
connection is created. -/
def get_connection (iface : InterfaceCfg) (st : CMState) : CMResult PooledDriver :=
  if !iface.enabled then
    CMResult.mk (Except.error ("Interface niet enabled")) st [] 0
  else
    match lookupA st.connections iface.id with
    | some d =>
      if test_connection d then CMResult.mk (Except.ok d) st [] 0
      else create_connection iface (close_connection iface.id st)
    | none => create_connection iface st

/-- ConnectionManager._record_success: increments the bucket only when
it exists. -/
def record_success (iid now : Nat) (stats : List (Nat × ConnStats)) : List (Nat × ConnStats) :=
  if (lookupA stats iid).isSome then
    stats.map (fun p => if p.1 == iid then
      (p.1, ConnStats.mk (p.2.success_count + 1) p.2.error_count (some now) p.2.last_error
        p.2.total_response_time)
      else p)
  else stats

/-- ConnectionManager._record_error: increments the bucket only when it
exists. -/
def record_error (iid now : Nat) (stats : List (Nat × ConnStats)) : List (Nat × ConnStats) :=
  if (lookupA stats iid).isSome then
    stats.map (fun p => if p.1 == iid then
      (p.1, ConnStats.mk p.2.success_count (p.2.error_count + 1) p.2.last_success (some now)
        p.2.total_response_time)
      else p)
  else stats

/-- ConnectionManager.health_check (connection_manager.py lines
135-171): get a connection, issue the probe read
read_holding_registers(address=0, count=1, slave=1) — whose keyword
binding against the driver signature (slave_id, address, count) raises
TypeError — and judge success by the absence of an exception; any
exception sets status error, records an error and force-closes the
pooled connection. -/
def health_check (iface : InterfaceCfg) (now : Nat) (st : CMState) :
    Bool × CMState × List String :=
  let gc := get_connection iface st
  match gc.result with
  | Except.error _ =>
    let st1 := CMState.mk gc.state.connections (record_error iface.id now gc.state.connection_stats)
    (false, close_connection iface.id st1, gc.statusUpdates ++ ["error"])
  | Except.ok _ =>
    if pyKwargsBind readHoldingParams readHoldingRequired probeKwargs then
      (true, CMState.mk gc.state.connections
        (record_success iface.id now gc.state.connection_stats),
        gc.statusUpdates ++ ["online"])
    else
      let st1 := CMState.mk gc.state.connections (record_error iface.id now gc.state.connection_stats)
      (false, close_connection iface.id st1, gc.statusUpdates ++ ["error"])

/-- Two get_connection calls for the same interface, the second seeing
the state the first left behind, with their transport-connect counts
summed — the scenario of claim C9. -/
def two_get_connections (iface : InterfaceCfg) (st : CMState) :
    CMResult PooledDriver × CMResult PooledDriver × Nat :=
  let r1 := get_connection iface st
  let r2 := get_connection iface r1.state
  (r1, r2, r1.transportConnects + r2.transportConnects)

/-! Register service (register_service.py).  The driver methods it calls
catch their own exceptions and return None, so their results are
embedded as Option payloads; read_register's own try/except catches the
remaining exception sources (create_driver's ValueError on an unknown
protocol, IndexError on raw_data[0] of an empty bit list). -/

/-- The exact value of a finite IEEE-754 single given by its 32-bit
pattern, as a rational; infinities and NaN (exponent 255) have no
rational value and are collapsed to 0 — no claim proved here depends on
the number assigned to that branch. -/
def float32ToRat (pattern : Nat) : ℚ :=
  let sign : Nat := pattern / 2 ^ 31 % 2
  let expo : Nat := pattern / 2 ^ 23 % 256
  let mant : Nat := pattern % 2 ^ 23
  let mag : ℚ :=
    if expo = 255 then 0
    else if expo = 0 then (mant : ℚ) / 2 ^ 149
    else ((2 ^ 23 + (mant : ℚ)) * 2 ^ expo) / 2 ^ 150
  if sign = 1 then -mag else mag

/-- Python float(raw_value) for the values the codec can produce. -/
def pyFloat : PyValue → ℚ
  | PyValue.int i => (i : ℚ)
  | PyValue.bool b => if b then 1 else 0
  | PyValue.f32 p => float32ToRat p

/-- The configuration read by RegisterService.read_register: the three
enabled flags along the interface/device/register chain and the
register's addressing and decoding fields. -/
structure RegisterCfg where
  interface_enabled : Bool
  device_enabled : Bool
  register_enabled : Bool
  protocol : String
  function_code : Nat
  slave_id : Nat
  address : Nat
  count : Nat
  data_type : String
  byte_order : String
  word_order : String
  conversion_factor : ℚ
  conversion_offset : ℚ
deriving Repr

/-- One driver read operation as issued by read_register. -/
inductive DriverCall where
  | readCoils (slave_id address count : Nat)
  | readDiscreteInputs (slave_id address count : Nat)
  | readHoldingRegisters (slave_id address count : Nat)
  | readInputRegisters (slave_id address count : Nat)
deriving DecidableEq, Repr

/-- The responses the pooled driver would give: bit reads (FC01/02)
yield an optional bit list, word reads (FC03/04) an optional word list;
None models every failure the driver absorbed internally. -/
structure DriverBehavior where
  bitRead : Option (List Bool)
  wordRead : Option (List Nat)
deriving Repr

/-- Register.convert_value (models.py line 271): the linear conversion
raw * factor + offset over Python floats. -/
def register_convert_value (raw : ℚ) (factor offset : ℚ) : ℚ := raw * factor + offset

/-- Body of RegisterService.read_register (register_service.py lines
34-89) inside its try: the error channel carries a raised exception
together with the driver calls already issued before it. -/
def read_register_body (reg : RegisterCfg) (drv : DriverBehavior) :
    Except (String × List DriverCall) ((Option PyValue × Option ℚ) × List DriverCall) :=
  if !(reg.interface_enabled && reg.device_enabled && reg.register_enabled) then
    Except.ok ((none, none), [])
  else if !(reg.protocol = "RTU" || reg.protocol = "TCP") then
    Except.error ("ValueError", [])
  else if reg.function_code = 1 || reg.function_code = 2 then
    let call := if reg.function_code = 1 then
        DriverCall.readCoils reg.slave_id reg.address reg.count
      else DriverCall.readDiscreteInputs reg.slave_id reg.address reg.count
    match drv.bitRead with
    | none => Except.ok ((none, none), [call])
    | some bits =>
      match bits.head? with
      | none => Except.error ("IndexError", [call])
      | some b =>
        let raw := PyValue.int (if b then 1 else 0)
        let conv := register_convert_value (pyFloat raw) reg.conversion_factor
          reg.conversion_offset
        Except.ok ((some raw, some conv), [call])
  else if reg.function_code = 3 || reg.function_code = 4 then
    let call := if reg.function_code = 3 then
        DriverCall.readHoldingRegisters reg.slave_id reg.address reg.count
      else DriverCall.readInputRegisters reg.slave_id reg.address reg.count
    match drv.wordRead with
    | none => Except.ok ((none, none), [call])
    | some ws =>
      match convert_registers_to_value ws reg.data_type reg.byte_order reg.word_order with
      | none => Except.ok ((none, none), [call])
      | some v =>
        let conv := register_convert_value (pyFloat v) reg.conversion_factor
          reg.conversion_offset
        Except.ok ((some v, some conv), [call])
  else
    Except.ok ((none, none), [])

/-- RegisterService.read_register: the body wrapped in the source's
try/except that logs and returns (None, None) on any exception. -/
def read_register (reg : RegisterCfg) (drv : DriverBehavior) :
    (Option PyValue × Option ℚ) × List DriverCall :=
  match read_register_body reg drv with
  | Except.ok r => r
  | Except.error e => ((none, none), e.2)

/-! Aggregation pipeline (data_aggregator.py), daily tier. -/

/-- One TrendDataAggregated row. -/
structure AggRow where
  register_id : Nat
  interval : String
  timestamp : Int
  min_value : ℚ
  max_value : ℚ
  avg_value : ℚ
  sample_count : Nat
deriving DecidableEq, Repr

/-- One day in the timestamp unit (seconds). -/
def oneDay : Int := 86400

/-- The filter of aggregate_daily (data_aggregator.py lines 97-102):
hourly rows of the register with bucket start ≤ timestamp < start + 1
day. -/
def inDailyWindow (rid : Nat) (startTime : Int) (r : AggRow) : Bool :=
  r.register_id == rid && r.interval == "hourly" &&
    decide (startTime ≤ r.timestamp) && decide (r.timestamp < startTime + oneDay)

/-- update_or_create keyed by (register, interval daily, timestamp):
replace every matching row, else append. -/
def upsertDaily (db : List AggRow) (row : AggRow) : List AggRow :=
  let isKey : AggRow → Bool := fun r =>
    r.register_id == row.register_id && r.interval == row.interval &&
      r.timestamp == row.timestamp
  if db.any isKey then db.map (fun r => if isKey r then row else r)
  else db ++ [row]

/-- DataAggregator.aggregate_daily (data_aggregator.py lines 78-136):
source rows are the hourly aggregates in the window; no rows → 0;
otherwise min of mins, max of maxes, the unweighted average of the
hourly avg values, a sample_count equal to the number of hourly rows,
upserted under (register, daily, bucket start), returning 1. -/
def aggregate_daily (db : List AggRow) (rid : Nat) (startTime : Int) : Nat × List AggRow :=
  let hourly := db.filter (inDailyWindow rid startTime)
  match hourly with
  | [] => (0, db)
  | h :: t =>
    let minV := t.foldl (fun a r => min a r.min_value) h.min_value
    let maxV := t.foldl (fun a r => max a r.max_value) h.max_value
    let avgV := ((h :: t).map (fun r => r.avg_value)).sum / ((h :: t).length : ℚ)
    let newRow : AggRow := AggRow.mk rid "daily" startTime minV maxV avgV (h :: t).length
    (1, upsertDaily db newRow)

/-! Shared helper lemmas. -/

lemma unpack_pack_big (w0 w1 : Nat) (h0 : w0 < 65536) (h1 : w1 < 65536) :
    unpackU32 "big" (w0 / 256, w0 % 256, w1 / 256, w1 % 256) = w0 * 65536 + w1 := by
  simp +decide [unpackU32]; omega

lemma unpack_pack_little (w0 w1 : Nat) (h0 : w0 < 65536) (h1 : w1 < 65536) :
    unpackU32 "little" (w0 % 256, w0 / 256, w1 % 256, w1 / 256) = w1 * 65536 + w0 := by
  simp +decide [unpackU32]; omega

lemma fold_big (w0 w1 : Nat) (h0 : w0 < 65536) (h1 : w1 < 65536) :
    byteFoldBE [w0 / 256, w0 % 256, w1 / 256, w1 % 256] = w0 * 65536 + w1 := by
  simp [byteFoldBE]; omega

lemma fold_little (w0 w1 : Nat) (h0 : w0 < 65536) (h1 : w1 < 65536) :
    byteFoldLE [w0 % 256, w0 / 256, w1 % 256, w1 / 256] = w1 * 65536 + w0 := by
  simp [byteFoldLE, byteFoldBE]; omega

lemma bestOpen_some_of_active (events : List AlarmEvent) (h : isActive events = true) :
    ∃ i e, bestOpen events = some (i, e) := by
  induction events with
  | nil => simp [isActive] at h
  | cons a rest ih =>
    simp only [isActive, List.any_cons, Bool.or_eq_true] at h
    cases hb : bestOpen rest with
    | none =>
      rcases h with h | h
      · exact ⟨0, a, by simp [bestOpen, hb, h]⟩
      · obtain ⟨i, e, hie⟩ := ih (by simpa [isActive] using h)
        rw [hb] at hie; cases hie
    | some p =>
      rcases p with ⟨j, f⟩
      by_cases ha : a.cleared_at.isNone && !(decide (a.triggered_at ≤ f.triggered_at))
      · exact ⟨0, a, by simp [bestOpen, hb, ha]⟩
      · exact ⟨j + 1, f, by simp [bestOpen, hb, ha]⟩

lemma bestOpen_mem (events : List AlarmEvent) :
    ∀ i e, bestOpen events = some (i, e) →
      events.get? i = some e ∧ e.cleared_at = none := by
  induction events with
  | nil => intro i e h; simp [bestOpen] at h
  | cons a rest ih =>
    intro i e h
    rw [show bestOpen (a :: rest) = match bestOpen rest with
      | none => if a.cleared_at.isNone then some (0, a) else none
      | some (j, f) =>
        if a.cleared_at.isNone && !(decide (a.triggered_at ≤ f.triggered_at)) then some (0, a)
        else some (j + 1, f) from rfl] at h
    cases hb : bestOpen rest with
    | none =>
      rw [hb] at h
      by_cases ha : a.cleared_at.isNone
      · simp [ha] at h
        obtain ⟨rfl, rfl⟩ := h
        exact ⟨rfl, Option.isNone_iff_eq_none.mp ha⟩
      · simp [ha] at h
    | some p =>
      rcases p with ⟨j, f⟩
      rw [hb] at h
      by_cases ha : a.cleared_at.isNone && !(decide (a.triggered_at ≤ f.triggered_at))
      · simp [ha] at h
        obtain ⟨rfl, rfl⟩ := h
        exact ⟨rfl, Option.isNone_iff_eq_none.mp (Bool.and_elim_left ha)⟩
      · simp [ha] at h
        obtain ⟨rfl, rfl⟩ := h
        have := ih j f hb
        exact ⟨by simpa using this.1, this.2⟩

lemma bestOpen_max (events : List AlarmEvent) :
    ∀ i e, bestOpen events = some (i, e) →
      ∀ g ∈ events, g.cleared_at = none → g.triggered_at ≤ e.triggered_at := by
  induction events with
  | nil => intro i e h; simp [bestOpen] at h
  | cons a rest ih =>
    intro i e h g hg hgopen
    rw [show bestOpen (a :: rest) = match bestOpen rest with
      | none => if a.cleared_at.isNone then some (0, a) else none
      | some (j, f) =>
        if a.cleared_at.isNone && !(decide (a.triggered_at ≤ f.triggered_at)) then some (0, a)
        else some (j + 1, f) from rfl] at h
    cases hb : bestOpen rest with
    | none =>
      rw [hb] at h
      by_cases ha : a.cleared_at.isNone
      · simp [ha] at h
        obtain ⟨-, rfl⟩ := h
        rcases List.mem_cons.mp hg with rfl | hmem
        · exact le_refl _
        · have hact : isActive rest = true := by
            simp [isActive]
            exact ⟨g, hmem, by simp [hgopen]⟩
          obtain ⟨i2, e2, h2⟩ := bestOpen_some_of_active rest hact
          rw [hb] at h2; cases h2
      · simp [ha] at h
    | some p =>
      rcases p with ⟨j, f⟩
      rw [hb] at h
      by_cases ha : a.cleared_at.isNone && !(decide (a.triggered_at ≤ f.triggered_at))
      · simp [ha] at h
        obtain ⟨-, rfl⟩ := h
        have hfa : f.triggered_at ≤ a.triggered_at := by
          rcases Bool.and_eq_true_iff.mp ha with ⟨-, hlt⟩
          simp at hlt
          omega
        rcases List.mem_cons.mp hg with rfl | hmem
        · exact le_refl _
        · exact le_trans (ih j f hb g hmem hgopen) hfa
      · simp [ha] at h
        obtain ⟨-, rfl⟩ := h
        rcases List.mem_cons.mp hg with rfl | hmem
        · by_cases hopen : g.cleared_at.isNone
          · have : ¬ (g.cleared_at.isNone && !(decide (g.triggered_at ≤ f.triggered_at))) := ha
            simp [hopen] at this
            exact this
          · exact absurd hgopen (by simpa [Option.isNone_iff_eq_none] using hopen)
        · exact ih j f hb g hmem hgopen

lemma openCount_append (l1 l2 : List AlarmEvent) :
    openCount (l1 ++ l2) = openCount l1 + openCount l2 := by
  simp [openCount, List.filter_append]

lemma isActive_false_iff (events : List AlarmEvent) :
    isActive events = false ↔ openCount events = 0 := by
  simp [isActive, openCount, List.length_eq_zero, List.filter_eq_nil_iff, List.any_eq_false]

lemma openCount_set_closed (events : List AlarmEvent) (i : Nat) (e ev2 : AlarmEvent)
    (hget : events.get? i = some e) (hopen : e.cleared_at = none)
    (hclosed : ev2.cleared_at.isNone = false) :
    openCount (events.set i ev2) + 1 = openCount events := by
  induction events generalizing i with
  | nil => simp at hget
  | cons a rest ih =>
    cases i with
    | zero =>
      rw [List.get?_cons_zero, Option.some_inj] at hget
      subst hget
      simp [openCount, List.filter_cons, hopen, hclosed]
    | succ n =>
      rw [List.get?_cons_succ] at hget
      have := ih n hget
      simp only [List.set]
      by_cases hao : a.cleared_at.isNone <;>
        simp [openCount, List.filter_cons, hao] at this ⊢ <;> omega

lemma create_connection_raises (iface : InterfaceCfg) (st : CMState) :
    ∃ e, create_connection iface st = CMResult.mk (Except.error e) st ["error"] 0 := by
  have hr : pyKwargsBind driverInitParams driverInitParams rtuCtorKwargs = false := by decide
  have htc : pyKwargsBind driverInitParams driverInitParams tcpCtorKwargs = false := by decide
  unfold create_connection constructDriver
  simp only [hr, htc, Bool.false_eq_true, if_false]
  split_ifs <;> exact ⟨_, rfl⟩

lemma get_connection_fresh (iface : InterfaceCfg) (st : CMState)
    (hen : iface.enabled = true) (hmiss : lookupA st.connections iface.id = none) :
    ∃ e, get_connection iface st = CMResult.mk (Except.error e) st ["error"] 0 := by
  obtain ⟨e, hc⟩ := create_connection_raises iface st
  exact ⟨e, by simp [get_connection, hen, hmiss, hc]⟩

lemma lookupA_removeA {α : Type} (l : List (Nat × α)) (k : Nat) :
    lookupA (removeA l k) k = none := by
  induction l with
  | nil => rfl
  | cons p rest ih =>
    by_cases hp : p.1 = k
    · simpa [lookupA, removeA, List.filter_cons, hp] using ih
    · simpa [lookupA, removeA, List.filter_cons, hp, List.find?] using ih

lemma record_error_absent (iid now : Nat) (stats : List (Nat × ConnStats))
    (h : lookupA stats iid = none) : record_error iid now stats = stats := by
  simp [record_error, h]

lemma upsertDaily_spec (db : List AggRow) (row : AggRow) :
    (∃ r ∈ upsertDaily db row, r.register_id = row.register_id ∧
        r.interval = row.interval ∧ r.timestamp = row.timestamp)
    ∧ ∀ r ∈ upsertDaily db row,
        r.register_id = row.register_id → r.interval = row.interval →
          r.timestamp = row.timestamp → r = row := by
  unfold upsertDaily
  by_cases hany : db.any (fun r => r.register_id == row.register_id &&
      r.interval == row.interval && r.timestamp == row.timestamp)
  · simp only [hany, if_true]
    constructor
    · obtain ⟨r, hr, hkey⟩ := List.any_eq_true.mp hany
      exact ⟨row, List.mem_map.mpr ⟨r, hr, by simp [hkey]⟩, rfl, rfl, rfl⟩
    · intro r hr h1 h2 h3
      obtain ⟨r0, hr0, heq⟩ := List.mem_map.mp hr
      by_cases hk : (r0.register_id == row.register_id && r0.interval == row.interval &&
          r0.timestamp == row.timestamp)
      · rw [if_pos hk] at heq
        exact heq.symm
      · rw [if_neg hk] at heq
        subst heq
        exact absurd (by simp [h1, h2, h3]) hk
  · simp only [hany, if_false]
    constructor
    · exact ⟨row, List.mem_append.mpr (Or.inr (by simp)), rfl, rfl, rfl⟩
    · intro r hr h1 h2 h3
      rcases List.mem_append.mp hr with hmem | hmem
      · exact absurd (List.any_eq_true.mpr ⟨r, hmem, by simp [h1, h2, h3]⟩) hany
      · simpa using hmem

/-! Claim theorems. -/

/-- C1: For every enabled interface with no pooled driver, get_connection
reaches _create_connection, whose driver construction raises TypeError
(keyword transport arguments against the single-parameter driver
constructor) before connect() can run: the call raises, the interface
status is set to error, no transport connect happens, and the pool and
statistics are left untouched — the claimed success path that caches the
driver and initialises a statistics bucket is unreachable. -/
theorem getConnection_fresh_always_raises (iface : InterfaceCfg) (st : CMState)
    (hen : iface.enabled = true) (hmiss : lookupA st.connections iface.id = none) :
    (∃ e, (get_connection iface st).result = Except.error e)
    ∧ (get_connection iface st).state = st
    ∧ (get_connection iface st).statusUpdates = ["error"]
    ∧ (get_connection iface st).transportConnects = 0 := by
  obtain ⟨e, hc⟩ := get_connection_fresh iface st hen hmiss
  rw [hc]
  exact ⟨⟨e, rfl⟩, rfl, rfl, rfl⟩

/-- C1 witness: a fresh enabled RTU interface against an empty pool. -/
theorem getConnection_fresh_always_raises_witness :
    (∃ e, (get_connection (InterfaceCfg.mk 1 true "RTU") (CMState.mk [] [])).result =
        Except.error e)
    ∧ (get_connection (InterfaceCfg.mk 1 true "RTU") (CMState.mk [] [])).state =
        CMState.mk [] []
    ∧ (get_connection (InterfaceCfg.mk 1 true "RTU") (CMState.mk [] [])).statusUpdates =
        ["error"]
    ∧ (get_connection (InterfaceCfg.mk 1 true "RTU") (CMState.mk [] [])).transportConnects = 0 :=
  getConnection_fresh_always_raises (InterfaceCfg.mk 1 true "RTU") (CMState.mk [] []) rfl rfl

/-- C2: health_check can never succeed: connection creation raises before
any probe, and even a pooled connection fails the probe because the probe
passes keyword slave to a driver method whose parameters are slave_id,
address, count.  Every call returns false, ends with an error status
update, force-closes the pooled entry — and, for an interface without an
existing statistics bucket, does not increment any error counter, because
_record_error only updates existing buckets and the bucket is only
created on a successful connection, which never happens. -/
theorem healthCheck_always_fails (iface : InterfaceCfg) (now : Nat) (st : CMState) :
    (health_check iface now st).1 = false
    ∧ (∃ pre, (health_check iface now st).2.2 = pre ++ ["error"])
    ∧ lookupA (health_check iface now st).2.1.connections iface.id = none
    ∧ (lookupA st.connection_stats iface.id = none →
        (health_check iface now st).2.1.connection_stats = st.connection_stats) := by
  have hprobe : pyKwargsBind readHoldingParams readHoldingRequired probeKwargs = false := by
    decide
  by_cases hen : iface.enabled
  · cases hc : lookupA st.connections iface.id with
    | none =>
      obtain ⟨e, hg⟩ := get_connection_fresh iface st hen hc
      have hh : health_check iface now st =
          (false, CMState.mk (removeA st.connections iface.id)
            (record_error iface.id now st.connection_stats), ["error"] ++ ["error"]) := by
        simp [health_check, hg, close_connection]
      rw [hh]
      exact ⟨rfl, ⟨["error"], rfl⟩, lookupA_removeA _ _,
        fun habs => record_error_absent _ _ _ habs⟩
    | some d =>
      by_cases ht : test_connection d
      · have hh : health_check iface now st =
            (false, CMState.mk (removeA st.connections iface.id)
              (record_error iface.id now st.connection_stats), [] ++ ["error"]) := by
          simp [health_check, get_connection, hen, hc, ht, hprobe, close_connection]
        rw [hh]
        exact ⟨rfl, ⟨[], rfl⟩, lookupA_removeA _ _,
          fun habs => record_error_absent _ _ _ habs⟩
      · obtain ⟨e, hcc⟩ := create_connection_raises iface
          (CMState.mk (removeA st.connections iface.id) st.connection_stats)
        have hh : health_check iface now st =
            (false, CMState.mk (removeA (removeA st.connections iface.id) iface.id)
              (record_error iface.id now st.connection_stats), ["error"] ++ ["error"]) := by
          simp [health_check, get_connection, hen, hc, ht, close_connection, hcc]
        rw [hh]
        exact ⟨rfl, ⟨["error"], rfl⟩, lookupA_removeA _ _,
          fun habs => record_error_absent _ _ _ habs⟩
  · have hh : health_check iface now st =
        (false, CMState.mk (removeA st.connections iface.id)
          (record_error iface.id now st.connection_stats), [] ++ ["error"]) := by
      simp [health_check, get_connection, hen, close_connection]
    rw [hh]
    exact ⟨rfl, ⟨[], rfl⟩, lookupA_removeA _ _,
      fun habs => record_error_absent _ _ _ habs⟩

/-- C2 witness: a fresh enabled interface with no statistics bucket:
health_check returns false and the statistics stay empty, so no error
counter was incremented. -/
theorem healthCheck_always_fails_witness :
    (health_check (InterfaceCfg.mk 1 true "RTU") 0 (CMState.mk [] [])).1 = false
    ∧ (health_check (InterfaceCfg.mk 1 true "RTU") 0 (CMState.mk [] [])).2.1.connection_stats =
        [] :=
  ⟨(healthCheck_always_fails (InterfaceCfg.mk 1 true "RTU") 0 (CMState.mk [] [])).1,
    (healthCheck_always_fails (InterfaceCfg.mk 1 true "RTU") 0 (CMState.mk [] [])).2.2.2 rfl⟩

/-- C3: check_alarm on an enabled alarm with a good sample is
edge-triggered: condition true and no open event appends exactly one new
open event, stamps last_triggered and returns true; condition true while
active changes nothing and returns false; condition false while active
stamps cleared_at on the most recent open event and returns false;
condition false while inactive changes nothing and returns false; and
the single-open-event invariant (at most one open history row) is
preserved. -/
theorem check_alarm_edge_triggered (cfg : AlarmCfg) (value : ℚ) (now : Nat) (st : AlarmState) :
    (cfg.enabled = false → ∀ l, check_alarm cfg l now st = (false, st))
    ∧ (check_alarm cfg none now st = (false, st))
    ∧ (cfg.enabled = true →
      evaluate_condition cfg.condition value cfg.threshold_high cfg.threshold_low cfg.hysteresis = true →
      isActive st.events = false →
        check_alarm cfg (some value) now st =
          (true, AlarmState.mk (some now) (st.events ++ [AlarmEvent.mk now none value false])))
    ∧ (cfg.enabled = true →
      evaluate_condition cfg.condition value cfg.threshold_high cfg.threshold_low cfg.hysteresis = true →
      isActive st.events = true → check_alarm cfg (some value) now st = (false, st))
    ∧ (cfg.enabled = true →
      evaluate_condition cfg.condition value cfg.threshold_high cfg.threshold_low cfg.hysteresis = false →
      isActive st.events = true →
        (check_alarm cfg (some value) now st).1 = false ∧
        ∃ i e, bestOpen st.events = some (i, e) ∧ st.events.get? i = some e ∧
          e.cleared_at = none ∧
          (∀ g ∈ st.events, g.cleared_at = none → g.triggered_at ≤ e.triggered_at) ∧
          (check_alarm cfg (some value) now st).2 =
            AlarmState.mk st.last_triggered
              (st.events.set i (AlarmEvent.mk e.triggered_at (some now) e.trigger_value e.acknowledged)))
    ∧ (cfg.enabled = true →
      evaluate_condition cfg.condition value cfg.threshold_high cfg.threshold_low cfg.hysteresis = false →
      isActive st.events = false → check_alarm cfg (some value) now st = (false, st))
    ∧ (openCount st.events ≤ 1 → openCount (check_alarm cfg (some value) now st).2.events ≤ 1) := by
  refine ⟨?_, ?_, ?_, ?_, ?_, ?_, ?_⟩
  · intro hd l
    simp [check_alarm, hd]
  · unfold check_alarm
    split_ifs <;> rfl
  · intro hen hs hact
    simp [check_alarm, hen, hs, hact, trigger_alarm]
  · intro hen hs hact
    simp [check_alarm, hen, hs, hact]
  · intro hen hs hact
    obtain ⟨i, e, hie⟩ := bestOpen_some_of_active st.events hact
    obtain ⟨hget, hopen⟩ := bestOpen_mem st.events i e hie
    refine ⟨by simp [check_alarm, hen, hs, hact], i, e, hie, hget, hopen,
      bestOpen_max st.events i e hie, ?_⟩
    simp [check_alarm, hen, hs, hact, clear_alarm, hie]
  · intro hen hs hact
    simp [check_alarm, hen, hs, hact]
  · intro hle
    by_cases hen : cfg.enabled
    · by_cases hs : evaluate_condition cfg.condition value cfg.threshold_high cfg.threshold_low cfg.hysteresis
      · by_cases hact : isActive st.events
        · simp [check_alarm, hen, hs, hact]; exact hle
        · have h0 : openCount st.events = 0 :=
            (isActive_false_iff st.events).mp (by simpa using hact)
          have : (check_alarm cfg (some value) now st).2.events =
              st.events ++ [AlarmEvent.mk now none value false] := by
            simp [check_alarm, hen, hs, hact, trigger_alarm]
          rw [this, openCount_append, h0]
          simp [openCount]
      · by_cases hact : isActive st.events
        · obtain ⟨i, e, hie⟩ := bestOpen_some_of_active st.events hact
          obtain ⟨hget, hopen⟩ := bestOpen_mem st.events i e hie
          have hset := openCount_set_closed st.events i e
            (AlarmEvent.mk e.triggered_at (some now) e.trigger_value e.acknowledged)
            hget hopen (by simp)
          simp [check_alarm, hen, hs, hact, clear_alarm, hie]
          omega
        · simp [check_alarm, hen, hs, hact]; exact hle
    · simp [check_alarm, hen]
      exact hle

/-- C3 witness: a greater_than alarm with threshold 50 and hysteresis 5
sees value 56 while inactive: exactly one open event is appended,
last_triggered is stamped, and true is returned. -/
theorem check_alarm_edge_triggered_witness :
    check_alarm (AlarmCfg.mk true "greater_than" 50 none 5) (some 56) 3 (AlarmState.mk none []) =
      (true, AlarmState.mk (some 3) [AlarmEvent.mk 3 none 56 false]) :=
  (check_alarm_edge_triggered (AlarmCfg.mk true "greater_than" 50 none 5) 56 3
    (AlarmState.mk none [])).2.2.1 rfl (by simp +decide [evaluate_condition]; norm_num) rfl

/-- C4: over 16-bit word lists, decoding INT32 and UINT32 equals the
algorithm the claim states (conditional word swap for low_high word
order, 4-byte packing per byte order, reinterpretation as a
signed/unsigned 32-bit integer with the same byte order), and with fewer
than 2 words the decode yields no value. -/
theorem int32_decode_matches_claim (words : List Nat) (bo wo : String)
    (hw : ∀ w ∈ words, w < 65536)
    (hbo : bo = "big" ∨ bo = "little") :
    (convert_registers_to_value words "INT32" bo wo =
      (int32DecodeSpec true words bo wo).map PyValue.int)
    ∧ (convert_registers_to_value words "UINT32" bo wo =
      (int32DecodeSpec false words bo wo).map PyValue.int)
    ∧ (words.length < 2 → convert_registers_to_value words "INT32" bo wo = none
        ∧ convert_registers_to_value words "UINT32" bo wo = none) := by
  match words with
  | [] =>
    refine ⟨?_, ?_, fun _ => ⟨?_, ?_⟩⟩ <;>
      simp +decide [convert_registers_to_value, convertRegistersBody, int32DecodeSpec]
  | [w] =>
    refine ⟨?_, ?_, fun _ => ⟨?_, ?_⟩⟩ <;>
      simp +decide [convert_registers_to_value, convertRegistersBody, int32DecodeSpec]
  | w0 :: w1 :: rest =>
    have h0 : w0 < 65536 := hw w0 (by simp)
    have h1 : w1 < 65536 := hw w1 (by simp)
    have hlen2 : ¬ (rest.length + 1 + 1 < 2) := by omega
    refine ⟨?_, ?_, fun hlen => absurd hlen hlen2⟩ <;>
    rcases hbo with hbo | hbo <;> subst hbo <;>
      by_cases hwo : wo = "low_high" <;>
      simp +decide [convert_registers_to_value, convertRegistersBody, int32DecodeSpec,
        getItem, packHH, unpackI32, hwo, h0, h1, hlen2,
        unpack_pack_big w0 w1 h0 h1, unpack_pack_little w0 w1 h0 h1,
        unpack_pack_big w1 w0 h1 h0, unpack_pack_little w1 w0 h1 h0,
        fold_big w0 w1 h0 h1, fold_little w0 w1 h0 h1,
        fold_big w1 w0 h1 h0, fold_little w1 w0 h1 h0]

/-- C4 witness: the concrete word pair 4660, 43981 decoded as INT32
big-endian with low_high word order. -/
theorem int32_decode_matches_claim_witness :
    convert_registers_to_value [4660, 43981] "INT32" "big" "low_high" =
      (int32DecodeSpec true [4660, 43981] "big" "low_high").map PyValue.int :=
  (int32_decode_matches_claim [4660, 43981] "big" "low_high" (by decide) (Or.inl rfl)).1

/-- C5: aggregate_daily over the hourly rows of the day window returns 0
when there are none, and otherwise returns 1 and upserts a daily row
whose avg_value is the unweighted arithmetic mean of the hourly rows'
avg_value fields, not re-weighted by their sample counts. -/
theorem aggregateDaily_unweighted_mean (db : List AggRow) (rid : Nat) (startTime : Int) :
    (db.filter (inDailyWindow rid startTime) = [] →
      aggregate_daily db rid startTime = (0, db))
    ∧ (db.filter (inDailyWindow rid startTime) ≠ [] →
      (aggregate_daily db rid startTime).1 = 1
      ∧ (∃ row ∈ (aggregate_daily db rid startTime).2,
          row.register_id = rid ∧ row.interval = "daily" ∧ row.timestamp = startTime)
      ∧ ∀ row ∈ (aggregate_daily db rid startTime).2,
          row.register_id = rid → row.interval = "daily" → row.timestamp = startTime →
            row.avg_value =
              ((db.filter (inDailyWindow rid startTime)).map (fun r => r.avg_value)).sum /
                ((db.filter (inDailyWindow rid startTime)).length : ℚ)) := by
  cases hf : db.filter (inDailyWindow rid startTime) with
  | nil =>
    refine ⟨fun _ => ?_, fun hne => absurd rfl hne⟩
    unfold aggregate_daily
    rw [hf]
  | cons h t =>
    refine ⟨fun hnil => by simp at hnil, fun _ => ?_⟩
    have hda : aggregate_daily db rid startTime =
        (1, upsertDaily db (AggRow.mk rid "daily" startTime
          (t.foldl (fun a r => min a r.min_value) h.min_value)
          (t.foldl (fun a r => max a r.max_value) h.max_value)
          (((h :: t).map (fun r => r.avg_value)).sum / ((h :: t).length : ℚ))
          (h :: t).length)) := by
      unfold aggregate_daily
      rw [hf]
    obtain ⟨hex, hall⟩ := upsertDaily_spec db (AggRow.mk rid "daily" startTime
      (t.foldl (fun a r => min a r.min_value) h.min_value)
      (t.foldl (fun a r => max a r.max_value) h.max_value)
      (((h :: t).map (fun r => r.avg_value)).sum / ((h :: t).length : ℚ))
      (h :: t).length)
    refine ⟨by rw [hda], ?_, ?_⟩
    · rw [hda]
      exact hex
    · intro row hrow h1 h2 h3
      rw [hda] at hrow
      have := hall row hrow h1 h2 h3
      rw [this]

/-- C5 witness: hourly rows avg 10 over 5 samples and avg 30 over 1
sample give a daily avg of 20, the unweighted mean, not the
sample-weighted 85/6. -/
theorem aggregateDaily_unweighted_mean_witness :
    (aggregate_daily [AggRow.mk 1 "hourly" 0 10 10 10 5, AggRow.mk 1 "hourly" 3600 30 30 30 1]
        1 0).1 = 1
    ∧ ∀ row ∈ (aggregate_daily
        [AggRow.mk 1 "hourly" 0 10 10 10 5, AggRow.mk 1 "hourly" 3600 30 30 30 1] 1 0).2,
        row.register_id = 1 → row.interval = "daily" → row.timestamp = 0 →
          row.avg_value = 20 :=
  ⟨((aggregateDaily_unweighted_mean
      [AggRow.mk 1 "hourly" 0 10 10 10 5, AggRow.mk 1 "hourly" 3600 30 30 30 1] 1 0).2
      (by decide)).1,
    fun row hrow h1 h2 h3 => by
      have := ((aggregateDaily_unweighted_mean
        [AggRow.mk 1 "hourly" 0 10 10 10 5, AggRow.mk 1 "hourly" 3600 30 30 30 1] 1 0).2
        (by decide)).2.2 row hrow h1 h2 h3
      rw [this]
      norm_num [inDailyWindow, oneDay]⟩

set_option maxHeartbeats 1000000

/-- C6: read_register returns (absent, absent) on every failure: the
disabled short-circuits (with no driver operation invoked), an unknown
protocol in driver creation, an unsupported function code, a driver
read yielding no data, an empty bit list, and a decode failure each
yield the absent pair, and every call returns either the absent pair or
a fully present pair — never a propagated exception, never a mixed
result. -/
theorem read_register_absorbs (reg : RegisterCfg) (drv : DriverBehavior) :
    ((reg.interface_enabled = false ∨ reg.device_enabled = false ∨
        reg.register_enabled = false) →
      read_register reg drv = ((none, none), []))
    ∧ (¬(reg.protocol = "RTU" ∨ reg.protocol = "TCP") →
      (read_register reg drv).1 = (none, none))
    ∧ (¬(reg.function_code = 1 ∨ reg.function_code = 2 ∨ reg.function_code = 3 ∨
        reg.function_code = 4) →
      (read_register reg drv).1 = (none, none))
    ∧ ((reg.function_code = 1 ∨ reg.function_code = 2) → drv.bitRead = none →
      (read_register reg drv).1 = (none, none))
    ∧ ((reg.function_code = 1 ∨ reg.function_code = 2) → drv.bitRead = some [] →
      (read_register reg drv).1 = (none, none))
    ∧ ((reg.function_code = 3 ∨ reg.function_code = 4) → drv.wordRead = none →
      (read_register reg drv).1 = (none, none))
    ∧ (∀ ws, (reg.function_code = 3 ∨ reg.function_code = 4) → drv.wordRead = some ws →
      convert_registers_to_value ws reg.data_type reg.byte_order reg.word_order = none →
      (read_register reg drv).1 = (none, none))
    ∧ ((read_register reg drv).1 = (none, none) ∨
        ∃ v c, (read_register reg drv).1 = (some v, some c)) := by
  have hoff : ¬(reg.interface_enabled && reg.device_enabled && reg.register_enabled) = true →
      read_register reg drv = ((none, none), []) := fun hb => by
    simp [read_register, read_register_body, Bool.eq_false_iff.mpr hb]
  refine ⟨?_, ?_, ?_, ?_, ?_, ?_, ?_, ?_⟩
  · intro h
    have hb : (reg.interface_enabled && reg.device_enabled && reg.register_enabled) = false := by
      rcases h with h | h | h <;> simp [h]
    simp [read_register, read_register_body, hb]
  · intro hp
    obtain ⟨hp1, hp2⟩ := not_or.mp hp
    by_cases hb : (reg.interface_enabled && reg.device_enabled && reg.register_enabled) = true
    · simp [read_register, read_register_body, hb, hp1, hp2]
    · rw [hoff hb]
  · intro hf
    obtain ⟨hf1, hf2, hf3, hf4⟩ :
        ¬reg.function_code = 1 ∧ ¬reg.function_code = 2 ∧ ¬reg.function_code = 3 ∧
          ¬reg.function_code = 4 := by
      constructor
      · exact fun h => hf (Or.inl h)
      constructor
      · exact fun h => hf (Or.inr (Or.inl h))
      constructor
      · exact fun h => hf (Or.inr (Or.inr (Or.inl h)))
      · exact fun h => hf (Or.inr (Or.inr (Or.inr h)))
    by_cases hb : (reg.interface_enabled && reg.device_enabled && reg.register_enabled) = true
    · unfold read_register read_register_body
      simp only [hb, hf1, hf2, hf3, hf4]
      split_ifs <;> first
        | rfl
        | simp_all
    · rw [hoff hb]
  · rintro (h1 | h1) hbr <;>
      by_cases hb : (reg.interface_enabled && reg.device_enabled && reg.register_enabled) = true
    · unfold read_register read_register_body
      simp only [hb, h1, hbr]
      split_ifs <;> first
        | rfl
        | simp_all
    · rw [hoff hb]
    · unfold read_register read_register_body
      simp only [hb, h1, hbr]
      split_ifs <;> first
        | rfl
        | simp_all
    · rw [hoff hb]
  · rintro (h1 | h1) hbr <;>
      by_cases hb : (reg.interface_enabled && reg.device_enabled && reg.register_enabled) = true
    · unfold read_register read_register_body
      simp only [hb, h1, hbr]
      split_ifs <;> first
        | rfl
        | simp_all
    · rw [hoff hb]
    · unfold read_register read_register_body
      simp only [hb, h1, hbr]
      split_ifs <;> first
        | rfl
        | simp_all
    · rw [hoff hb]
  · rintro (h1 | h1) hwr <;>
      by_cases hb : (reg.interface_enabled && reg.device_enabled && reg.register_enabled) = true
    · unfold read_register read_register_body
      simp only [hb, h1, hwr]
      split_ifs <;> first
        | rfl
        | simp_all
    · rw [hoff hb]
    · unfold read_register read_register_body
      simp only [hb, h1, hwr]
      split_ifs <;> first
        | rfl
        | simp_all
    · rw [hoff hb]
  · rintro ws (h1 | h1) hwr hconv <;>
      by_cases hb : (reg.interface_enabled && reg.device_enabled && reg.register_enabled) = true
    · unfold read_register read_register_body
      simp only [hb, h1, hwr, hconv]
      split_ifs <;> first
        | rfl
        | simp_all
    · rw [hoff hb]
    · unfold read_register read_register_body
      simp only [hb, h1, hwr, hconv]
      split_ifs <;> first
        | rfl
        | simp_all
    · rw [hoff hb]
  · rcases drv with ⟨br, wr⟩
    rcases br with _ | bits
    · rcases wr with _ | ws
      · unfold read_register read_register_body
        split_ifs <;> simp
      · cases hc : convert_registers_to_value ws reg.data_type reg.byte_order reg.word_order <;>
          (unfold read_register read_register_body; split_ifs <;> simp [hc])
    · rcases bits with _ | ⟨b, bs⟩
      · rcases wr with _ | ws
        · unfold read_register read_register_body
          split_ifs <;> simp
        · cases hc : convert_registers_to_value ws reg.data_type reg.byte_order reg.word_order <;>
            (unfold read_register read_register_body; split_ifs <;> simp [hc])
      · rcases wr with _ | ws
        · unfold read_register read_register_body
          split_ifs <;> simp
        · cases hc : convert_registers_to_value ws reg.data_type reg.byte_order reg.word_order <;>
            (unfold read_register read_register_body; split_ifs <;> simp [hc])

/-- C6 witness: a register on a disabled interface yields (absent,
absent) with no driver call issued. -/
theorem read_register_absorbs_witness :
    read_register
      (RegisterCfg.mk false true true "RTU" 3 1 0 1 "UINT16" "big" "high_low" 1 0)
      (DriverBehavior.mk none none) = ((none, none), []) :=
  (read_register_absorbs
    (RegisterCfg.mk false true true "RTU" 3 1 0 1 "UINT16" "big" "high_low" 1 0)
    (DriverBehavior.mk none none)).1 (Or.inl rfl)

/-- C7 counterexample: a range condition with threshold_low absent does
not fail: the source's _evaluate_condition returns the ordinary value
false, while the claim (and the spec-modelled evaluateConditionSpec)
demand the hard failure MissingLowThreshold. -/
theorem range_missing_low_is_soft_false :
    evaluate_condition "range" 5 50 none 0 = false
    ∧ evaluateConditionSpec "range" 5 50 none 0 =
        Except.error AlarmConditionError.missingLowThreshold
    ∧ Except.ok (evaluate_condition "range" 5 50 none 0) ≠
        evaluateConditionSpec "range" 5 50 none 0 := by
  refine ⟨by decide, rfl, ?_⟩
  intro hcon
  rw [show evaluateConditionSpec "range" 5 50 none 0 =
      Except.error AlarmConditionError.missingLowThreshold from rfl] at hcon
  exact Except.noConfusion hcon

/-- C7 amended: a range condition with threshold_low present triggers
exactly when the value lies outside the closed band from
threshold_low - hysteresis to threshold_high + hysteresis; with
threshold_low absent the evaluation logs and returns false — a soft
false, not a hard caller-facing failure. -/
theorem range_condition_amended (value hi lo h : ℚ) :
    (evaluate_condition "range" value hi (some lo) h = true ↔
      (value < lo - h ∨ hi + h < value))
    ∧ evaluate_condition "range" value hi none h = false := by
  constructor
  · rw [show evaluate_condition "range" value hi (some lo) h =
        !(decide (lo - h ≤ value ∧ value ≤ hi + h)) from by
      simp +decide [evaluate_condition]]
    simp only [Bool.not_eq_true', decide_eq_false_iff_not, not_and_or, not_le]
  · simp +decide [evaluate_condition]

/-- C8: on a connected driver, a failing FC06 single-register write
(protocol error or raised exception) returns false but leaves the whole
driver state — in particular the _connected flag — unchanged, while every
other read/write operation clears _connected on the same failures. -/
theorem writeRegister_keeps_connected (sid addr v cnt : Nat) (bval : Bool)
    (bvals : List Bool) (wvals : List Nat) (cres : Bool) (outcome : OpOutcome)
    (st : DriverState) (hconn : st.connected = true) (hcli : st.hasClient = true)
    (hfail : outcome ≠ OpOutcome.ok) :
    write_register sid addr v cres outcome st = (false, st)
    ∧ (write_coil sid addr bval cres outcome st).1 = false
    ∧ (write_coil sid addr bval cres outcome st).2.connected = false
    ∧ (write_coils sid addr bvals cres outcome st).1 = false
    ∧ (write_coils sid addr bvals cres outcome st).2.connected = false
    ∧ (write_registers sid addr wvals cres outcome st).1 = false
    ∧ (write_registers sid addr wvals cres outcome st).2.connected = false
    ∧ (read_coils sid addr cnt cres outcome bvals st).1 = none
    ∧ (read_coils sid addr cnt cres outcome bvals st).2.connected = false
    ∧ (read_discrete_inputs sid addr cnt cres outcome bvals st).1 = none
    ∧ (read_discrete_inputs sid addr cnt cres outcome bvals st).2.connected = false
    ∧ (read_holding_registers sid addr cnt cres outcome wvals st).1 = none
    ∧ (read_holding_registers sid addr cnt cres outcome wvals st).2.connected = false
    ∧ (read_input_registers sid addr cnt cres outcome wvals st).1 = none
    ∧ (read_input_registers sid addr cnt cres outcome wvals st).2.connected = false := by
  have hic : driver_is_connected st = true := by
    simp [driver_is_connected, hconn, hcli]
  rcases st with ⟨c, k⟩
  cases outcome with
  | ok => exact absurd rfl hfail
  | raised =>
    simp [write_register, write_coil, write_coils, write_registers, read_coils,
      read_discrete_inputs, read_holding_registers, read_input_registers, hic]
  | protocolError =>
    simp [write_register, write_coil, write_coils, write_registers, read_coils,
      read_discrete_inputs, read_holding_registers, read_input_registers, hic]

/-- C8 witness: a protocol-error response on a connected driver: FC06
keeps the state, FC05 clears the connected flag. -/
theorem writeRegister_keeps_connected_witness :
    write_register 1 0 5 true OpOutcome.protocolError (DriverState.mk true true) =
      (false, DriverState.mk true true)
    ∧ (write_coil 1 0 true true OpOutcome.protocolError (DriverState.mk true true)).2.connected =
        false :=
  ⟨(writeRegister_keeps_connected 1 0 5 1 true [true] [7] true OpOutcome.protocolError
      (DriverState.mk true true) rfl rfl (by decide)).1,
    (writeRegister_keeps_connected 1 0 5 1 true [true] [7] true OpOutcome.protocolError
      (DriverState.mk true true) rfl rfl (by decide)).2.2.1⟩

/-- C9: two get_connection calls for the same never-before-seen enabled
interface, the second running after the first, perform zero underlying
transport connects in total — not the claimed exactly one — because each
call's driver construction raises TypeError before connect(); both calls
raise and the shared pool state is unchanged, and the code contains no
lock serializing them. -/
theorem twoGetConnections_zero_connects (iface : InterfaceCfg) (st : CMState)
    (hen : iface.enabled = true) (hmiss : lookupA st.connections iface.id = none) :
    (two_get_connections iface st).2.2 = 0
    ∧ (∃ e1, (two_get_connections iface st).1.result = Except.error e1)
    ∧ (∃ e2, (two_get_connections iface st).2.1.result = Except.error e2)
    ∧ (two_get_connections iface st).2.1.state = st := by
  obtain ⟨e, hg⟩ := get_connection_fresh iface st hen hmiss
  have h2 : get_connection iface (get_connection iface st).state =
      get_connection iface st := by rw [hg]; exact hg
  refine ⟨?_, ⟨e, ?_⟩, ⟨e, ?_⟩, ?_⟩ <;>
    simp [two_get_connections, h2, hg]

/-- C9 witness: the fresh enabled interface 1 against an empty pool. -/
theorem twoGetConnections_zero_connects_witness :
    (two_get_connections (InterfaceCfg.mk 1 true "RTU") (CMState.mk [] [])).2.2 = 0 :=
  (twoGetConnections_zero_connects (InterfaceCfg.mk 1 true "RTU") (CMState.mk [] [])
    rfl rfl).1

/-- C10: convert_registers_to_value is total at its boundary: an unknown
data type yields the absent marker, the empty word list yields absent
for every data type (out-of-range index accesses are caught), the
32-bit types with fewer than 2 words yield absent, and every call
returns either a value or the absent marker. -/
theorem convert_total_at_boundary (regs : List Nat) (dt bo wo : String) :
    (dt ∉ (["AUTO", "BOOL", "INT16", "UINT16", "INT32", "UINT32", "FLOAT32"] : List String) →
      convert_registers_to_value regs dt bo wo = none)
    ∧ (regs = [] → convert_registers_to_value regs dt bo wo = none)
    ∧ ((dt = "INT32" ∨ dt = "UINT32" ∨ dt = "FLOAT32") → regs.length < 2 →
      convert_registers_to_value regs dt bo wo = none)
    ∧ (convert_registers_to_value regs dt bo wo = none ∨
        ∃ v, convert_registers_to_value regs dt bo wo = some v) := by
  refine ⟨?_, ?_, ?_, ?_⟩
  · intro h
    simp only [List.mem_cons, List.mem_singleton, not_or] at h
    obtain ⟨h1, h2, h3, h4, h5, h6, h7, -⟩ := h
    simp [convert_registers_to_value, convertRegistersBody, h1, h2, h3, h4, h5, h6, h7]
  · rintro rfl
    unfold convert_registers_to_value convertRegistersBody
    split_ifs <;> simp [getItem] <;> split_ifs <;> rfl
  · rintro (rfl | rfl | rfl) hlen <;>
      simp +decide [convert_registers_to_value, convertRegistersBody, hlen]
  · cases hc : convert_registers_to_value regs dt bo wo
    · exact Or.inl rfl
    · exact Or.inr ⟨_, rfl⟩

/-- C10 witness: an unknown data type on the empty list yields the
absent marker. -/
theorem convert_total_at_boundary_witness :
    convert_registers_to_value [] "WEIRD" "big" "high_low" = none :=
  (convert_total_at_boundary [] "WEIRD" "big" "high_low").2.1 rfl

end ModbusWeb
